import Mathlib

/-!
Verification of the attach-policy custom-resource Lambda handler and the
declarative construct wrappers of the landing-zone accelerator.

The handler (`handler` below) is a shallow embedding of the TypeScript
function in the attach-policy lambda: it receives a CloudFormation custom
resource event, paginates `ListPoliciesForTarget`, and issues
`AttachPolicy` / `DetachPolicy` calls.  External interaction is made
explicit: the paginated listing is passed in as `pages` (the successive
pages the paginator would yield), and the handler returns, besides its
result object, the ordered trace of API calls it issues.
-/

namespace AttachPolicy

/-- The CloudFormation lifecycle request types the handler switches on. -/
inductive RequestType
  | create
  | update
  | delete
deriving DecidableEq, Repr

/-- The resource properties the handler reads from the event:
`policyId`, `targetId` and `type`. -/
structure ResourceProperties where
  policyId : String
  targetId : String
  type : String
deriving DecidableEq, Repr

/-- The CloudFormation custom resource event, restricted to the fields the
handler reads. `physicalResourceId` is present on Delete/Update events and
absent on Create events. -/
structure Event where
  requestType : RequestType
  resourceProperties : ResourceProperties
  physicalResourceId : Option String
deriving DecidableEq, Repr

/-- The object the handler returns: `{ PhysicalResourceId, Status }`. -/
structure HandlerResult where
  PhysicalResourceId : Option String
  Status : String
deriving DecidableEq, Repr

/-- The external Organizations API calls the handler can issue.  A
`listPoliciesForTargetPage` call is one page fetch of the
`paginateListPoliciesForTarget` paginator with the given `Filter` and
`TargetId`; `attachPolicy` and `detachPolicy` are the two mutating
commands. -/
inductive ApiCall
  | listPoliciesForTargetPage (filter targetId : String)
  | attachPolicy (policyId targetId : String)
  | detachPolicy (policyId targetId : String)
deriving DecidableEq, Repr

/-- Whether a call mutates external state (attach or detach, not list). -/
def ApiCall.isMutation : ApiCall → Bool
  | .listPoliciesForTargetPage _ _ => false
  | .attachPolicy _ _ => true
  | .detachPolicy _ _ => true

/-- The mutating calls of a trace, in order. -/
def mutationCalls (calls : List ApiCall) : List ApiCall :=
  calls.filter ApiCall.isMutation

/-- Whether a call is an `AttachPolicyCommand`. -/
def ApiCall.isAttach : ApiCall → Bool
  | .attachPolicy _ _ => true
  | _ => false

/-- Whether a call is a `DetachPolicyCommand`. -/
def ApiCall.isDetach : ApiCall → Bool
  | .detachPolicy _ _ => true
  | _ => false

/-- The attach calls of a trace, in order. -/
def attachCalls (calls : List ApiCall) : List ApiCall :=
  calls.filter ApiCall.isAttach

/-- The detach calls of a trace, in order. -/
def detachCalls (calls : List ApiCall) : List ApiCall :=
  calls.filter ApiCall.isDetach

/-- The Create/Update branch of the handler: for each page (fetched by one
list call) scan the page for `policyId`; on a match, return at once (the
source logs and returns the success object).  If no page matches, issue one
`AttachPolicyCommand`.  This function yields the ordered call trace. -/
def createUpdateCalls (policyId type targetId : String) :
    List (List String) → List ApiCall
  | [] => [ApiCall.attachPolicy policyId targetId]
  | page :: rest =>
    if policyId ∈ page then
      [ApiCall.listPoliciesForTargetPage type targetId]
    else
      ApiCall.listPoliciesForTargetPage type targetId ::
        createUpdateCalls policyId type targetId rest

/-- Within one page of the Delete branch, the inner `for` loop issues one
`DetachPolicyCommand` per entry whose `Id` equals `policyId`. -/
def deletePageCalls (policyId targetId : String) (page : List String) :
    List ApiCall :=
  (page.filter fun p => p == policyId).map fun _ =>
    ApiCall.detachPolicy policyId targetId

/-- The Delete branch listing: every page is fetched (the loop never breaks
out early), and each matching entry triggers a detach. -/
def deleteCalls (policyId type targetId : String) :
    List (List String) → List ApiCall
  | [] => []
  | page :: rest =>
    ApiCall.listPoliciesForTargetPage type targetId ::
      (deletePageCalls policyId targetId page ++
        deleteCalls policyId type targetId rest)

/-- Shallow embedding of the attach-policy lambda handler.  `pages` is the
sequence of pages that `paginateListPoliciesForTarget` yields for
`(Filter := type, TargetId := targetId)`.  Returns the result object the
source returns together with the ordered trace of API calls issued. -/
def handler (event : Event) (pages : List (List String)) :
    HandlerResult × List ApiCall :=
  let policyId := event.resourceProperties.policyId
  let targetId := event.resourceProperties.targetId
  let filter := event.resourceProperties.type
  match event.requestType with
  | .create | .update =>
    ({ PhysicalResourceId := some (policyId ++ "_" ++ targetId),
       Status := "SUCCESS" },
     createUpdateCalls policyId filter targetId pages)
  | .delete =>
    ({ PhysicalResourceId := event.physicalResourceId,
       Status := "SUCCESS" },
     if policyId = "p-FullAWSAccess" then []
     else deleteCalls policyId filter targetId pages)

/-- The external Organizations service state: the set of policy
attachments, as a list of `(policyId, targetId)` pairs, together with the
type of each policy (the service knows each policy's type; the handler
only passes a type filter to the listing). -/
structure OrgState where
  attachments : List (String × String)
  typeOf : String → String

/-- What `ListPoliciesForTarget` returns (flattened across pages): the ids
of the policies attached to `targetId` whose type equals `filter`. -/
def listPoliciesForTarget (s : OrgState) (filter targetId : String) :
    List String :=
  (s.attachments.filter fun a =>
    a.2 == targetId && s.typeOf a.1 == filter).map Prod.fst

/-- The effect of one API call on the service state: a page fetch changes
nothing, `AttachPolicy` adds the attachment, `DetachPolicy` removes it. -/
def applyCall (s : OrgState) : ApiCall → OrgState
  | .listPoliciesForTargetPage _ _ => s
  | .attachPolicy p t => { s with attachments := s.attachments ++ [(p, t)] }
  | .detachPolicy p t =>
    { s with attachments := s.attachments.filter fun a =>
        !(a.1 == p && a.2 == t) }

/-- The effect of a call trace on the service state, in order. -/
def applyCalls (s : OrgState) (calls : List ApiCall) : OrgState :=
  calls.foldl applyCall s

/-- A valid pagination of a listing result: the concatenation of the pages
is the full result, in order. -/
def IsPagination (pages : List (List String)) (l : List String) : Prop :=
  pages.flatten = l

/-- Execution of the handler when the external calls may fail.  `failAt =
some k` means the `k`-th issued call (0-based) raises; the error escapes
the handler (the source has no try/catch), and the trace stops with the
failing call.  `failAt = none`, or an index past the trace, is a run where
every call succeeds. -/
def run (event : Event) (pages : List (List String)) (failAt : Option Nat) :
    Except Unit HandlerResult × List ApiCall :=
  let res := (handler event pages).1
  let calls := (handler event pages).2
  match failAt with
  | none => (Except.ok res, calls)
  | some k =>
    if k < calls.length then (Except.error (), calls.take (k + 1))
    else (Except.ok res, calls)

/-- The mutations applied to the external service in a run whose `k`-th
call raises: a call that raises has no effect, so exactly the mutating
calls strictly before position `k` are applied. -/
def appliedMutations (event : Event) (pages : List (List String)) (k : Nat) :
    List ApiCall :=
  mutationCalls (((handler event pages).2).take k)

end AttachPolicy

namespace Constructs

/-- A key-value tag, as in the Organizations `Tag` interface: both fields
are typed `string | undefined` in the source. -/
structure Tag where
  Key : Option String
  Value : Option String
deriving DecidableEq, Repr

/-- The `PolicyType` enum of the Policy construct. -/
inductive PolicyType
  | AISERVICES_OPT_OUT_POLICY
  | BACKUP_POLICY
  | SERVICE_CONTROL_POLICY
  | TAG_POLICY
deriving DecidableEq, Repr

/-- The `PolicyProps` interface: `description` and `tags` are optional. -/
structure PolicyProps where
  path : String
  name : String
  description : Option String
  type : PolicyType
  tags : Option (List Tag)
deriving DecidableEq, Repr

/-- The `AwsMacieMembersProps` interface. -/
structure AwsMacieMembersProps where
  region : String
  adminAccountId : String
deriving DecidableEq, Repr

/-- A value in a custom resource properties mapping. -/
inductive PropValue
  | str (s : String)
  | optStr (s : Option String)
  | policyType (t : PolicyType)
  | optTags (ts : Option (List Tag))
deriving DecidableEq, Repr

/-- The properties mapping the Policy construct passes to its
`cdk.CustomResource`: `bucket`, `key`, a freshly generated `uuid`, then
the spread of `props` (`path`, `name`, `description`, `type`, `tags`). -/
def policyResourceProperties (bucket key uuid : String)
    (props : PolicyProps) : List (String × PropValue) :=
  [("bucket", PropValue.str bucket),
   ("key", PropValue.str key),
   ("uuid", PropValue.str uuid),
   ("path", PropValue.str props.path),
   ("name", PropValue.str props.name),
   ("description", PropValue.optStr props.description),
   ("type", PropValue.policyType props.type),
   ("tags", PropValue.optTags props.tags)]

/-- The properties mapping the MacieMembers construct passes to its
`cdk.CustomResource`: `region`, `adminAccountId`, and a freshly generated
`uuid`. -/
def macieMembersResourceProperties (uuid : String)
    (props : AwsMacieMembersProps) : List (String × PropValue) :=
  [("region", PropValue.str props.region),
   ("adminAccountId", PropValue.str props.adminAccountId),
   ("uuid", PropValue.str uuid)]

end Constructs

namespace AttachPolicy

/-- If no page contains the policy id, the Create/Update branch fetches
every page and ends with exactly one attach call. -/
lemma createUpdateCalls_of_not_mem (p ty t : String)
    (pages : List (List String)) (h : p ∉ pages.flatten) :
    createUpdateCalls p ty t pages
      = (pages.map fun _ => ApiCall.listPoliciesForTargetPage ty t)
        ++ [ApiCall.attachPolicy p t] := by
  induction pages with
  | nil => rfl
  | cons page rest ih =>
    have hp : p ∉ page := fun hmem =>
      h (List.mem_flatten.mpr ⟨page, List.mem_cons_self _ _, hmem⟩)
    have hr : p ∉ rest.flatten := fun hmem => by
      rcases List.mem_flatten.mp hmem with ⟨l, hl, hpl⟩
      exact h (List.mem_flatten.mpr ⟨l, List.mem_cons_of_mem _ hl, hpl⟩)
    simp [createUpdateCalls, hp, ih hr]

/-- If some page contains the policy id, every call the Create/Update
branch issues is a page fetch (the match returns before any mutation). -/
lemma createUpdateCalls_all_list_of_mem (p ty t : String)
    (pages : List (List String)) (h : p ∈ pages.flatten) :
    ∀ c ∈ createUpdateCalls p ty t pages,
      c = ApiCall.listPoliciesForTargetPage ty t := by
  induction pages with
  | nil => simp at h
  | cons page rest ih =>
    intro c hc
    by_cases hp : p ∈ page
    · simp [createUpdateCalls, hp] at hc
      simp [hc]
    · have hr : p ∈ rest.flatten := by
        rcases List.mem_flatten.mp h with ⟨l, hl, hpl⟩
        rcases List.mem_cons.mp hl with rfl | hl
        · exact absurd hpl hp
        · exact List.mem_flatten.mpr ⟨l, hl, hpl⟩
      simp only [createUpdateCalls] at hc
      rw [if_neg hp] at hc
      rcases List.mem_cons.mp hc with rfl | hc
      · rfl
      · exact ih hr c hc

/-- Every call of the Delete branch listing is a page fetch or a detach of
the given policy from the given target. -/
lemma deleteCalls_mem (p ty t : String) (pages : List (List String)) :
    ∀ c ∈ deleteCalls p ty t pages,
      c = ApiCall.listPoliciesForTargetPage ty t
        ∨ c = ApiCall.detachPolicy p t := by
  induction pages with
  | nil => simp [deleteCalls]
  | cons page rest ih =>
    intro c hc
    simp only [deleteCalls, List.mem_cons, List.mem_append] at hc
    rcases hc with rfl | hc | hc
    · exact Or.inl rfl
    · simp only [deletePageCalls] at hc
      rcases List.mem_map.mp hc with ⟨q, _, rfl⟩
      exact Or.inr rfl
    · exact ih c hc

/-- Filtering the detach calls out of one page's detach burst keeps it
whole: every call in it is a detach. -/
lemma detachCalls_deletePageCalls (p t : String) (page : List String) :
    detachCalls (deletePageCalls p t page) = deletePageCalls p t page :=
  List.filter_eq_self.mpr (by
    intro a ha
    simp only [deletePageCalls, List.mem_map] at ha
    rcases ha with ⟨q, _, rfl⟩
    rfl)

/-- The detach calls of the Delete branch listing: one per occurrence of
the policy id across all pages, in order. -/
lemma detachCalls_deleteCalls (p ty t : String)
    (pages : List (List String)) :
    detachCalls (deleteCalls p ty t pages)
      = (pages.flatten.filter fun q => q == p).map fun _ =>
          ApiCall.detachPolicy p t := by
  induction pages with
  | nil => rfl
  | cons page rest ih =>
    have step : detachCalls (deleteCalls p ty t (page :: rest))
        = detachCalls (deletePageCalls p t page)
          ++ detachCalls (deleteCalls p ty t rest) := by
      simp [deleteCalls, detachCalls, List.filter_cons, List.filter_append,
        ApiCall.isDetach]
    rw [step, detachCalls_deletePageCalls, ih]
    simp [deletePageCalls, List.flatten_cons, List.filter_append]

/-- In the Delete branch listing the mutation calls are exactly the detach
calls (no attach is ever issued there). -/
lemma mutationCalls_deleteCalls (p ty t : String)
    (pages : List (List String)) :
    mutationCalls (deleteCalls p ty t pages)
      = detachCalls (deleteCalls p ty t pages) :=
  List.filter_congr (by
    intro c hc
    rcases deleteCalls_mem p ty t pages c hc with rfl | rfl <;> rfl)

/-- A run of page fetches leaves the external state unchanged. -/
lemma applyCalls_listPages {γ : Type} (s : OrgState) (a b : String)
    (l : List γ) :
    applyCalls s (l.map fun _ => ApiCall.listPoliciesForTargetPage a b)
      = s := by
  induction l with
  | nil => rfl
  | cons x xs ih => simpa [applyCalls, applyCall] using ih

/-- After an attach of a policy whose type matches the filter, the listing
for the target gains exactly that policy id, at the end. -/
lemma listPoliciesForTarget_after_attach (s : OrgState) (p t ty : String)
    (h : s.typeOf p = ty) :
    listPoliciesForTarget (applyCall s (ApiCall.attachPolicy p t)) ty t
      = listPoliciesForTarget s ty t ++ [p] := by
  simp [listPoliciesForTarget, applyCall, List.filter_append, h]

/-- Filtering a run of page fetches with a predicate that rejects page
fetches yields nothing. -/
lemma filter_listPages {γ : Type} (pr : ApiCall → Bool) (a b : String)
    (h : pr (ApiCall.listPoliciesForTargetPage a b) = false) (l : List γ) :
    (l.map fun _ => ApiCall.listPoliciesForTargetPage a b).filter pr
      = [] := by
  induction l with
  | nil => rfl
  | cons x xs ih => simp [List.filter_cons, h, ih]

/-- If some page contains the policy id, the Create/Update branch issues
no mutating call at all. -/
lemma mutationCalls_createUpdateCalls_of_mem (p ty t : String)
    (pages : List (List String)) (h : p ∈ pages.flatten) :
    mutationCalls (createUpdateCalls p ty t pages) = [] :=
  List.filter_eq_nil_iff.mpr (by
    intro c hc
    have hcl := createUpdateCalls_all_list_of_mem p ty t pages h c hc
    subst hcl
    simp [ApiCall.isMutation])

/-- In the Create/Update branch, the only mutating call is the final
attach, so every strict prefix of the trace is mutation-free. -/
lemma mutationCalls_take_createUpdate (p ty t : String)
    (pages : List (List String)) (k : Nat)
    (hk : k < (createUpdateCalls p ty t pages).length) :
    mutationCalls ((createUpdateCalls p ty t pages).take k) = [] := by
  by_cases hmem : p ∈ pages.flatten
  · refine List.filter_eq_nil_iff.mpr ?_
    intro c hc
    have hcl := createUpdateCalls_all_list_of_mem p ty t pages hmem c
      (List.take_subset _ _ hc)
    subst hcl
    simp [ApiCall.isMutation]
  · rw [createUpdateCalls_of_not_mem p ty t pages hmem] at hk ⊢
    have hlen : k ≤ pages.length := by
      simpa [List.length_append, List.length_map] using
        Nat.lt_succ_iff.mp (by simpa using hk)
    rw [List.take_append_eq_append_take]
    have h0 : k - (pages.map fun _ =>
        ApiCall.listPoliciesForTargetPage ty t).length = 0 := by
      simp [List.length_map, Nat.sub_eq_zero_of_le hlen]
    rw [h0]
    simp only [List.take_zero, List.append_nil]
    refine List.filter_eq_nil_iff.mpr ?_
    intro c hc
    rcases List.mem_map.mp (List.take_subset _ _ hc) with ⟨_, _, rfl⟩
    simp [ApiCall.isMutation]

/-- C2: for every Delete event whose `policyId` is the protected
`p-FullAWSAccess`, the handler issues no API call at all (no detach, no
list), and returns the incoming `PhysicalResourceId` unchanged with
Status `SUCCESS`. -/
theorem delete_protected_policy_no_calls (props : ResourceProperties)
    (pid : Option String) (pages : List (List String))
    (h : props.policyId = "p-FullAWSAccess") :
    (handler ⟨RequestType.delete, props, pid⟩ pages).2 = []
      ∧ (handler ⟨RequestType.delete, props, pid⟩ pages).1
          = ⟨pid, "SUCCESS"⟩ := by
  constructor
  · simp [handler, h]
  · rfl

/-- Witness for C2 at a concrete protected-policy Delete event. -/
theorem delete_protected_policy_no_calls_witness :
    (⟨"p-FullAWSAccess", "ou-1", "SERVICE_CONTROL_POLICY"⟩ :
        ResourceProperties).policyId = "p-FullAWSAccess"
    ∧ ((handler
          ⟨RequestType.delete,
           ⟨"p-FullAWSAccess", "ou-1", "SERVICE_CONTROL_POLICY"⟩,
           some "p-orig"⟩ [["p-FullAWSAccess"]]).2 = []
        ∧ (handler
            ⟨RequestType.delete,
             ⟨"p-FullAWSAccess", "ou-1", "SERVICE_CONTROL_POLICY"⟩,
             some "p-orig"⟩ [["p-FullAWSAccess"]]).1
          = ⟨some "p-orig", "SUCCESS"⟩) :=
  ⟨rfl, delete_protected_policy_no_calls _ _ _ rfl⟩

/-- C3: a Create event with policyId `p-1234`, targetId `ou-5678`, type
`SERVICE_CONTROL_POLICY`, where no page of the listing contains
`p-1234`, issues exactly one attach call with those ids (and no detach)
and returns `{PhysicalResourceId: "p-1234_ou-5678", Status: "SUCCESS"}`. -/
theorem create_attaches_when_not_found (pid : Option String)
    (pages : List (List String)) (h : "p-1234" ∉ pages.flatten) :
    attachCalls (handler
        ⟨RequestType.create,
         ⟨"p-1234", "ou-5678", "SERVICE_CONTROL_POLICY"⟩, pid⟩ pages).2
      = [ApiCall.attachPolicy "p-1234" "ou-5678"]
    ∧ detachCalls (handler
        ⟨RequestType.create,
         ⟨"p-1234", "ou-5678", "SERVICE_CONTROL_POLICY"⟩, pid⟩ pages).2
      = []
    ∧ (handler
        ⟨RequestType.create,
         ⟨"p-1234", "ou-5678", "SERVICE_CONTROL_POLICY"⟩, pid⟩ pages).1
      = ⟨some "p-1234_ou-5678", "SUCCESS"⟩ := by
  have hcalls : (handler
      ⟨RequestType.create,
       ⟨"p-1234", "ou-5678", "SERVICE_CONTROL_POLICY"⟩, pid⟩ pages).2
      = (pages.map fun _ =>
          ApiCall.listPoliciesForTargetPage "SERVICE_CONTROL_POLICY"
            "ou-5678")
        ++ [ApiCall.attachPolicy "p-1234" "ou-5678"] :=
    createUpdateCalls_of_not_mem _ _ _ pages h
  refine ⟨?_, ?_, rfl⟩
  · rw [hcalls]
    unfold attachCalls
    rw [List.filter_append, filter_listPages _ _ _ rfl]
    rfl
  · rw [hcalls]
    unfold detachCalls
    rw [List.filter_append, filter_listPages _ _ _ rfl]
    rfl

/-- Witness for C3 with two listed pages, neither containing `p-1234`. -/
theorem create_attaches_when_not_found_witness :
    "p-1234" ∉ ([["p-9999"], []] : List (List String)).flatten
    ∧ (attachCalls (handler
          ⟨RequestType.create,
           ⟨"p-1234", "ou-5678", "SERVICE_CONTROL_POLICY"⟩, none⟩
          [["p-9999"], []]).2
        = [ApiCall.attachPolicy "p-1234" "ou-5678"]
      ∧ detachCalls (handler
          ⟨RequestType.create,
           ⟨"p-1234", "ou-5678", "SERVICE_CONTROL_POLICY"⟩, none⟩
          [["p-9999"], []]).2
        = []
      ∧ (handler
          ⟨RequestType.create,
           ⟨"p-1234", "ou-5678", "SERVICE_CONTROL_POLICY"⟩, none⟩
          [["p-9999"], []]).1
        = ⟨some "p-1234_ou-5678", "SUCCESS"⟩) :=
  ⟨by decide, create_attaches_when_not_found none _ (by decide)⟩

/-- C6: a Delete event with a non-protected `policyId` that appears on no
page of the listing issues zero detach calls and still returns the
incoming `PhysicalResourceId` with Status `SUCCESS`. -/
theorem delete_not_found_no_detach (props : ResourceProperties)
    (pid : Option String) (pages : List (List String))
    (h1 : props.policyId ≠ "p-FullAWSAccess")
    (h2 : props.policyId ∉ pages.flatten) :
    detachCalls (handler ⟨RequestType.delete, props, pid⟩ pages).2 = []
    ∧ (handler ⟨RequestType.delete, props, pid⟩ pages).1
        = ⟨pid, "SUCCESS"⟩ := by
  refine ⟨?_, rfl⟩
  have hcalls : (handler ⟨RequestType.delete, props, pid⟩ pages).2
      = deleteCalls props.policyId props.type props.targetId pages := by
    simp [handler, h1]
  rw [hcalls, detachCalls_deleteCalls]
  have hfilter : pages.flatten.filter
      (fun q => q == props.policyId) = [] :=
    List.filter_eq_nil_iff.mpr (by
      intro q hq hbeq
      exact h2 (eq_of_beq hbeq ▸ hq))
  rw [hfilter]
  rfl

/-- Witness for C6 at a concrete not-found Delete event. -/
theorem delete_not_found_no_detach_witness :
    ("p-1234" : String) ≠ "p-FullAWSAccess"
    ∧ "p-1234" ∉ ([["p-9999"], []] : List (List String)).flatten
    ∧ (detachCalls (handler
          ⟨RequestType.delete,
           ⟨"p-1234", "ou-5678", "SERVICE_CONTROL_POLICY"⟩,
           some "p-1234_ou-5678"⟩ [["p-9999"], []]).2 = []
      ∧ (handler
          ⟨RequestType.delete,
           ⟨"p-1234", "ou-5678", "SERVICE_CONTROL_POLICY"⟩,
           some "p-1234_ou-5678"⟩ [["p-9999"], []]).1
        = ⟨some "p-1234_ou-5678", "SUCCESS"⟩) :=
  ⟨by decide, by decide,
   delete_not_found_no_detach _ _ _ (by decide) (by decide)⟩

/-- C7: on the same resource properties, physical resource id and listing,
an Update event behaves exactly as a Create event: same result object and
same call trace. -/
theorem update_behaves_as_create (props : ResourceProperties)
    (pid : Option String) (pages : List (List String)) :
    handler ⟨RequestType.update, props, pid⟩ pages
      = handler ⟨RequestType.create, props, pid⟩ pages :=
  rfl

/-- C9: on Delete with a non-protected `policyId`, the handler issues one
detach per occurrence of the policy id across all listed pages — the
detach calls are in bijection with the matching entries, so they are not
capped at one and the loop does not stop at the first match. -/
theorem delete_detaches_per_occurrence (props : ResourceProperties)
    (pid : Option String) (pages : List (List String))
    (h : props.policyId ≠ "p-FullAWSAccess") :
    detachCalls (handler ⟨RequestType.delete, props, pid⟩ pages).2
      = (pages.flatten.filter fun q => q == props.policyId).map
          (fun _ => ApiCall.detachPolicy props.policyId props.targetId)
    ∧ (detachCalls (handler ⟨RequestType.delete, props, pid⟩ pages).2).length
        = (pages.flatten.filter fun q => q == props.policyId).length := by
  have hcalls : (handler ⟨RequestType.delete, props, pid⟩ pages).2
      = deleteCalls props.policyId props.type props.targetId pages := by
    simp [handler, h]
  rw [hcalls, detachCalls_deleteCalls]
  exact ⟨rfl, List.length_map _ _⟩

/-- Witness for C9: the policy id occurs twice across the pages and two
detach calls are issued. -/
theorem delete_detaches_per_occurrence_witness :
    ("p-1234" : String) ≠ "p-FullAWSAccess"
    ∧ (detachCalls (handler
          ⟨RequestType.delete,
           ⟨"p-1234", "ou-5678", "SERVICE_CONTROL_POLICY"⟩, some "x"⟩
          [["p-1234"], ["p-1234"]]).2
        = (([["p-1234"], ["p-1234"]] : List (List String)).flatten.filter
            fun q => q == "p-1234").map
            (fun _ => ApiCall.detachPolicy "p-1234" "ou-5678")
      ∧ (detachCalls (handler
            ⟨RequestType.delete,
             ⟨"p-1234", "ou-5678", "SERVICE_CONTROL_POLICY"⟩, some "x"⟩
            [["p-1234"], ["p-1234"]]).2).length
          = (([["p-1234"], ["p-1234"]] : List (List String)).flatten.filter
              fun q => q == "p-1234").length) :=
  ⟨by decide, delete_detaches_per_occurrence _ _ _ (by decide)⟩

/-- C1: starting from a service state in which the policy is not yet
attached to the target (and whose type matches the event's filter),
running the handler twice in sequence with identical resource properties
on Create/Update issues exactly one attach call in total: the second
invocation lists the attachment made by the first, mutates nothing, and
both invocations return `{PhysicalResourceId: policyId_targetId,
Status: "SUCCESS"}`. -/
theorem attach_idempotent (s : OrgState) (props : ResourceProperties)
    (pid1 pid2 : Option String) (rt1 rt2 : RequestType)
    (hrt1 : rt1 = RequestType.create ∨ rt1 = RequestType.update)
    (hrt2 : rt2 = RequestType.create ∨ rt2 = RequestType.update)
    (pages1 pages2 : List (List String))
    (hType : s.typeOf props.policyId = props.type)
    (hFresh : props.policyId
        ∉ listPoliciesForTarget s props.type props.targetId)
    (h1 : IsPagination pages1
        (listPoliciesForTarget s props.type props.targetId))
    (h2 : IsPagination pages2
        (listPoliciesForTarget
          (applyCalls s (handler ⟨rt1, props, pid1⟩ pages1).2)
          props.type props.targetId)) :
    attachCalls ((handler ⟨rt1, props, pid1⟩ pages1).2
        ++ (handler ⟨rt2, props, pid2⟩ pages2).2)
      = [ApiCall.attachPolicy props.policyId props.targetId]
    ∧ mutationCalls (handler ⟨rt2, props, pid2⟩ pages2).2 = []
    ∧ (handler ⟨rt1, props, pid1⟩ pages1).1
        = ⟨some (props.policyId ++ "_" ++ props.targetId), "SUCCESS"⟩
    ∧ (handler ⟨rt2, props, pid2⟩ pages2).1
        = ⟨some (props.policyId ++ "_" ++ props.targetId), "SUCCESS"⟩ := by
  have hmem1 : props.policyId ∉ pages1.flatten := by
    rw [h1]; exact hFresh
  have hcalls1 : ∀ rt, rt = RequestType.create ∨ rt = RequestType.update →
      (handler ⟨rt, props, pid1⟩ pages1).2
        = (pages1.map fun _ => ApiCall.listPoliciesForTargetPage
            props.type props.targetId)
          ++ [ApiCall.attachPolicy props.policyId props.targetId] := by
    intro rt hrt
    rcases hrt with rfl | rfl <;>
      exact createUpdateCalls_of_not_mem _ _ _ pages1 hmem1
  have hstate : applyCalls s (handler ⟨rt1, props, pid1⟩ pages1).2
      = applyCall s (ApiCall.attachPolicy props.policyId props.targetId) := by
    rw [hcalls1 rt1 hrt1]
    unfold applyCalls
    rw [List.foldl_append]
    have hl := applyCalls_listPages s props.type props.targetId pages1
    unfold applyCalls at hl
    rw [hl]
    rfl
  have hmem2 : props.policyId ∈ pages2.flatten := by
    rw [h2, hstate, listPoliciesForTarget_after_attach s _ _ _ hType]
    exact List.mem_append_right _ (List.mem_singleton.mpr rfl)
  have hmut2 : mutationCalls (handler ⟨rt2, props, pid2⟩ pages2).2 = [] := by
    rcases hrt2 with rfl | rfl <;>
      exact mutationCalls_createUpdateCalls_of_mem _ _ _ pages2 hmem2
  have hattach2 : attachCalls (handler ⟨rt2, props, pid2⟩ pages2).2 = [] :=
    List.filter_eq_nil_iff.mpr (by
      intro c hc
      have hnone := List.filter_eq_nil_iff.mp hmut2 c hc
      intro hIsAtt
      cases c with
      | listPoliciesForTargetPage f t => simp [ApiCall.isAttach] at hIsAtt
      | attachPolicy p t => exact hnone (by simp [ApiCall.isMutation])
      | detachPolicy p t => simp [ApiCall.isAttach] at hIsAtt)
  refine ⟨?_, hmut2, ?_, ?_⟩
  · unfold attachCalls
    rw [List.filter_append, hcalls1 rt1 hrt1, List.filter_append,
      filter_listPages _ _ _ rfl]
    unfold attachCalls at hattach2
    rw [hattach2]
    rfl
  · rcases hrt1 with rfl | rfl <;> rfl
  · rcases hrt2 with rfl | rfl <;> rfl

/-- An example service state for the idempotence witness: no attachments
yet; every policy has type `SERVICE_CONTROL_POLICY`. -/
def exampleOrgState : OrgState :=
  ⟨[], fun _ => "SERVICE_CONTROL_POLICY"⟩

/-- The example resource properties used by the idempotence witness. -/
def exampleProps : ResourceProperties :=
  ⟨"p-1234", "ou-5678", "SERVICE_CONTROL_POLICY"⟩

/-- Witness for C1: a fresh state; the first invocation lists an empty
page sequence and attaches, the second lists one page containing the new
attachment and mutates nothing. -/
theorem attach_idempotent_witness :
    exampleOrgState.typeOf exampleProps.policyId = exampleProps.type
    ∧ exampleProps.policyId ∉ listPoliciesForTarget exampleOrgState
        exampleProps.type exampleProps.targetId
    ∧ IsPagination [] (listPoliciesForTarget exampleOrgState
        exampleProps.type exampleProps.targetId)
    ∧ IsPagination [["p-1234"]]
        (listPoliciesForTarget
          (applyCalls exampleOrgState
            (handler ⟨RequestType.create, exampleProps, none⟩ []).2)
          exampleProps.type exampleProps.targetId)
    ∧ (attachCalls ((handler ⟨RequestType.create, exampleProps, none⟩ []).2
          ++ (handler ⟨RequestType.update, exampleProps, none⟩
                [["p-1234"]]).2)
        = [ApiCall.attachPolicy exampleProps.policyId exampleProps.targetId]
      ∧ mutationCalls (handler ⟨RequestType.update, exampleProps, none⟩
          [["p-1234"]]).2 = []
      ∧ (handler ⟨RequestType.create, exampleProps, none⟩ []).1
          = ⟨some (exampleProps.policyId ++ "_" ++ exampleProps.targetId),
             "SUCCESS"⟩
      ∧ (handler ⟨RequestType.update, exampleProps, none⟩ [["p-1234"]]).1
          = ⟨some (exampleProps.policyId ++ "_" ++ exampleProps.targetId),
             "SUCCESS"⟩) :=
  ⟨rfl, by simp [exampleOrgState, listPoliciesForTarget], rfl, rfl,
   attach_idempotent exampleOrgState exampleProps none none
     RequestType.create RequestType.update (Or.inl rfl) (Or.inr rfl)
     [] [["p-1234"]] rfl
     (by simp [exampleOrgState, listPoliciesForTarget]) rfl rfl⟩

/-- C10: every result the handler returns, on every request type and every
branch, carries Status `SUCCESS`; a failed status is never returned. -/
theorem handler_status_always_success (event : Event)
    (pages : List (List String)) :
    ((handler event pages).1).Status = "SUCCESS" := by
  obtain ⟨rt, props, pid⟩ := event
  cases rt <;> rfl

/-- C4 counterexample: in the Delete branch a match does not short-circuit
subsequent mutations.  With the policy id listed once on each of two
pages, the trace is list, detach, list, detach: after the match on the
first page, a further page is fetched and a further detach is issued, so
the invocation performs more than one mutation even though a match was
found. -/
theorem match_short_circuit_counterexample :
    ("p-1" ∈ ([["p-1"], ["p-1"]] : List (List String)).flatten)
    ∧ (handler
        ⟨RequestType.delete, ⟨"p-1", "ou-1", "SERVICE_CONTROL_POLICY"⟩,
         some "x"⟩ [["p-1"], ["p-1"]]).2
      = [ApiCall.listPoliciesForTargetPage "SERVICE_CONTROL_POLICY" "ou-1",
         ApiCall.detachPolicy "p-1" "ou-1",
         ApiCall.listPoliciesForTargetPage "SERVICE_CONTROL_POLICY" "ou-1",
         ApiCall.detachPolicy "p-1" "ou-1"]
    ∧ ¬ (mutationCalls (handler
          ⟨RequestType.delete, ⟨"p-1", "ou-1", "SERVICE_CONTROL_POLICY"⟩,
           some "x"⟩ [["p-1"], ["p-1"]]).2).length ≤ 1 := by
  refine ⟨by decide, by decide, by decide⟩

/-- C4 amended: in the Create/Update branch a match found on any page
short-circuits all subsequent calls — the invocation issues no mutating
call at all; in the Delete branch every matching entry triggers a detach,
so a match does not stop later detach calls. -/
theorem create_update_match_short_circuits (props : ResourceProperties)
    (pid : Option String) (pages : List (List String)) (rt : RequestType)
    (hrt : rt = RequestType.create ∨ rt = RequestType.update)
    (h : props.policyId ∈ pages.flatten) :
    mutationCalls (handler ⟨rt, props, pid⟩ pages).2 = [] := by
  rcases hrt with rfl | rfl <;>
    exact mutationCalls_createUpdateCalls_of_mem _ _ _ pages h

/-- Witness for the amended C4: a Create whose listing contains the policy
id on the second page issues no mutating call. -/
theorem create_update_match_short_circuits_witness :
    ("p-1234" : String) ∈ ([["p-9999"], ["p-1234"]] :
        List (List String)).flatten
    ∧ mutationCalls (handler
        ⟨RequestType.create,
         ⟨"p-1234", "ou-5678", "SERVICE_CONTROL_POLICY"⟩, none⟩
        [["p-9999"], ["p-1234"]]).2 = [] :=
  ⟨by decide,
   create_update_match_short_circuits _ none _ RequestType.create
     (Or.inl rfl) (by decide)⟩

/-- C5 counterexample: a failing invocation is not all-or-nothing.  On a
Delete whose listing holds the policy id on two pages, letting the third
call (the second page fetch) raise leaves the error propagated and yet
the first detach already applied: external state has mutated in a failed
invocation. -/
theorem partial_failure_counterexample :
    (run ⟨RequestType.delete, ⟨"p-1", "ou-1", "SERVICE_CONTROL_POLICY"⟩,
        some "x"⟩ [["p-1"], ["p-1"]] (some 2)).1 = Except.error ()
    ∧ appliedMutations
        ⟨RequestType.delete, ⟨"p-1", "ou-1", "SERVICE_CONTROL_POLICY"⟩,
         some "x"⟩ [["p-1"], ["p-1"]] 2
      = [ApiCall.detachPolicy "p-1" "ou-1"]
    ∧ appliedMutations
        ⟨RequestType.delete, ⟨"p-1", "ou-1", "SERVICE_CONTROL_POLICY"⟩,
         some "x"⟩ [["p-1"], ["p-1"]] 2 ≠ [] := by
  refine ⟨rfl, by decide, by decide⟩

/-- C5 amended: any failing external call makes the whole invocation fail
(the error escapes, no result object is produced); in the Create/Update
branch a failing invocation has applied no mutation at all; in the Delete
branch the only mutations a failing invocation can leave behind are the
detach calls issued before the failing call. -/
theorem error_propagates_mutation_scope (event : Event)
    (pages : List (List String)) (k : Nat)
    (hk : k < ((handler event pages).2).length) :
    (run event pages (some k)).1 = Except.error ()
    ∧ ((event.requestType = RequestType.create
          ∨ event.requestType = RequestType.update) →
        appliedMutations event pages k = [])
    ∧ (∀ c ∈ appliedMutations event pages k, ApiCall.isDetach c = true) := by
  obtain ⟨rt, props, pid⟩ := event
  refine ⟨by simp [run, hk], ?_, ?_⟩
  · intro hrt
    rcases hrt with hrt | hrt <;> simp at hrt <;> subst hrt <;>
      exact mutationCalls_take_createUpdate _ _ _ pages k hk
  · intro c hc
    have hc' : c ∈ mutationCalls (((handler ⟨rt, props, pid⟩ pages).2).take k) := hc
    have hmem := List.mem_filter.mp hc'
    have hin : c ∈ (handler ⟨rt, props, pid⟩ pages).2 :=
      List.take_subset _ _ hmem.1
    cases rt with
    | create =>
      have := mutationCalls_take_createUpdate props.policyId props.type
        props.targetId pages k hk
      rw [show appliedMutations
          ⟨RequestType.create, props, pid⟩ pages k
          = mutationCalls ((createUpdateCalls props.policyId props.type
              props.targetId pages).take k) from rfl, this] at hc
      simp at hc
    | update =>
      have := mutationCalls_take_createUpdate props.policyId props.type
        props.targetId pages k hk
      rw [show appliedMutations
          ⟨RequestType.update, props, pid⟩ pages k
          = mutationCalls ((createUpdateCalls props.policyId props.type
              props.targetId pages).take k) from rfl, this] at hc
      simp at hc
    | delete =>
      by_cases hprot : props.policyId = "p-FullAWSAccess"
      · have hnil : (handler ⟨RequestType.delete, props, pid⟩ pages).2
            = [] := by simp [handler, hprot]
        rw [hnil] at hin
        simp at hin
      · have hcalls : (handler ⟨RequestType.delete, props, pid⟩ pages).2
            = deleteCalls props.policyId props.type props.targetId pages := by
          simp [handler, hprot]
        rw [hcalls] at hin
        rcases deleteCalls_mem _ _ _ pages c hin with rfl | rfl
        · exact absurd hmem.2 (by simp [ApiCall.isMutation])
        · rfl

/-- Witness for the amended C5 at a failing Create invocation: the first
page fetch raises, the error propagates, and no mutation was applied. -/
theorem error_propagates_mutation_scope_witness :
    0 < ((handler ⟨RequestType.create,
          ⟨"p-1234", "ou-5678", "SERVICE_CONTROL_POLICY"⟩, none⟩
          [["p-9999"]]).2).length
    ∧ ((run ⟨RequestType.create,
          ⟨"p-1234", "ou-5678", "SERVICE_CONTROL_POLICY"⟩, none⟩
          [["p-9999"]] (some 0)).1 = Except.error ()
      ∧ (((⟨RequestType.create,
            ⟨"p-1234", "ou-5678", "SERVICE_CONTROL_POLICY"⟩, none⟩ :
              Event).requestType = RequestType.create
          ∨ (⟨RequestType.create,
              ⟨"p-1234", "ou-5678", "SERVICE_CONTROL_POLICY"⟩, none⟩ :
                Event).requestType = RequestType.update) →
          appliedMutations ⟨RequestType.create,
            ⟨"p-1234", "ou-5678", "SERVICE_CONTROL_POLICY"⟩, none⟩
            [["p-9999"]] 0 = [])
      ∧ (∀ c ∈ appliedMutations ⟨RequestType.create,
            ⟨"p-1234", "ou-5678", "SERVICE_CONTROL_POLICY"⟩, none⟩
            [["p-9999"]] 0, ApiCall.isDetach c = true)) :=
  ⟨by decide,
   error_propagates_mutation_scope _ _ 0 (by decide)⟩

end AttachPolicy

namespace Constructs

/-- C8: both construct wrappers register their custom resource with a
properties mapping containing a `uuid` key holding the freshly generated
token, and two constructions drawing distinct tokens produce different
property mappings even when every declared prop (and the asset bucket and
key) coincide. -/
theorem constructs_fresh_uuid (bucket key : String)
    (pprops : PolicyProps) (mprops : AwsMacieMembersProps)
    (u1 u2 : String) (h : u1 ≠ u2) :
    ((policyResourceProperties bucket key u1 pprops).lookup "uuid"
        = some (PropValue.str u1)
      ∧ (macieMembersResourceProperties u1 mprops).lookup "uuid"
        = some (PropValue.str u1))
    ∧ policyResourceProperties bucket key u1 pprops
        ≠ policyResourceProperties bucket key u2 pprops
    ∧ macieMembersResourceProperties u1 mprops
        ≠ macieMembersResourceProperties u2 mprops := by
  refine ⟨⟨?_, ?_⟩, ?_, ?_⟩
  · simp [policyResourceProperties, List.lookup]
  · simp [macieMembersResourceProperties, List.lookup]
  · intro heq
    simp [policyResourceProperties] at heq
    exact h heq
  · intro heq
    simp [macieMembersResourceProperties] at heq
    exact h heq

/-- Witness for C8 with equal declared props and two distinct tokens. -/
theorem constructs_fresh_uuid_witness :
    ("uuid-a" : String) ≠ "uuid-b"
    ∧ (((policyResourceProperties "bkt" "key"
            "uuid-a" ⟨"p.json", "deny-all", none,
              PolicyType.SERVICE_CONTROL_POLICY, none⟩).lookup "uuid"
          = some (PropValue.str "uuid-a")
        ∧ (macieMembersResourceProperties "uuid-a"
            ⟨"us-east-1", "111111111111"⟩).lookup "uuid"
          = some (PropValue.str "uuid-a"))
      ∧ policyResourceProperties "bkt" "key" "uuid-a"
          ⟨"p.json", "deny-all", none,
            PolicyType.SERVICE_CONTROL_POLICY, none⟩
        ≠ policyResourceProperties "bkt" "key" "uuid-b"
            ⟨"p.json", "deny-all", none,
              PolicyType.SERVICE_CONTROL_POLICY, none⟩
      ∧ macieMembersResourceProperties "uuid-a"
          ⟨"us-east-1", "111111111111"⟩
        ≠ macieMembersResourceProperties "uuid-b"
            ⟨"us-east-1", "111111111111"⟩) :=
  ⟨by decide,
   constructs_fresh_uuid "bkt" "key" _ _ "uuid-a" "uuid-b" (by decide)⟩

end Constructs
